import Mathlib

/-!
Shallow embedding of the export engine of the ai-website-builder repository
(the four format adapters `exportToFramer`, `exportToFigma`, `exportToWebflow`,
`exportToHTML` and the helpers `hexToRgb`, `escapeHtml`).

Non-determinism in the source (calls to `nanoid()` and `new Date()`) is made
explicit through a `RunEnv` record supplying the generated unique ids (indexed
by call order) and the current timestamp.  Everything else is translated
directly from the source.
-/

/-- A scalar JSON value, as stored in a component's open `properties` bag and
in the merged `props` object of the component-graph export. -/
inductive JsonVal where
  | str (s : String)
  | num (n : Int)
  | bool (b : Bool)
deriving DecidableEq, Repr

/-- `interface ExportComponent` from the source.  The open
`properties: Record<string, any>` field is modelled as an association list in
JS insertion order (later entries override earlier ones on lookup). -/
structure ExportComponent where
  id : String
  type : String
  title : String
  content : String
  x : Int
  y : Int
  width : Int
  height : Int
  bgColor : String
  textColor : String
  properties : List (String × JsonVal)
deriving DecidableEq, Repr

/-- `interface DesignTokens`: three optional string-keyed groups, modelled as
optional association lists in JS key order. -/
structure DesignTokens where
  colors : Option (List (String × String))
  typography : Option (List (String × String))
  spacing : Option (List (String × String))
deriving DecidableEq, Repr

/-- The run environment: `ids n` is the string returned by the `(n+1)`-th
`nanoid()` call of the export invocation, `now` the ISO timestamp returned by
`new Date().toISOString()`. -/
structure RunEnv where
  ids : Nat → String
  now : String

/-- Result of `hexToRgb`: integer channels. -/
structure Rgb where
  r : Nat
  g : Nat
  b : Nat
deriving DecidableEq, Repr

/-- Whether a character is matched by the `[a-f\d]` class with the `i` flag
(decimal digit, `a`–`f`, or `A`–`F`), stated on code points. -/
def isHexDigit (c : Char) : Bool :=
  decide ((48 ≤ c.toNat ∧ c.toNat ≤ 57) ∨ (97 ≤ c.toNat ∧ c.toNat ≤ 102) ∨
    (65 ≤ c.toNat ∧ c.toNat ≤ 70))

/-- Value of a single hexadecimal digit, as `parseInt(_, 16)` assigns it. -/
def hexDigitVal (c : Char) : Nat :=
  if 48 ≤ c.toNat ∧ c.toNat ≤ 57 then c.toNat - 48
  else if 97 ≤ c.toNat ∧ c.toNat ≤ 102 then c.toNat - 97 + 10
  else if 65 ≤ c.toNat ∧ c.toNat ≤ 70 then c.toNat - 65 + 10
  else 0

/-- `parseInt` of a two-digit hexadecimal group. -/
def hexPairVal (hi lo : Char) : Nat := 16 * hexDigitVal hi + hexDigitVal lo

/-- The `#?` part of the regex: an optional leading `#` is stripped. -/
def stripHash : List Char → List Char
  | '#' :: rest => rest
  | cs => cs

/-- `hexToRgb` from the source: the anchored case-insensitive regex
`^#?([a-f\d]{2})([a-f\d]{2})([a-f\d]{2})$` either matches exactly six hex
digits after the optional `#` — in which case the three two-digit groups are
parsed with `parseInt(_, 16)` — or the fallback `{r:0, g:0, b:0}` is
returned. -/
def hexToRgb (hex : String) : Rgb :=
  match stripHash hex.toList with
  | [c1, c2, c3, c4, c5, c6] =>
    if isHexDigit c1 && isHexDigit c2 && isHexDigit c3 && isHexDigit c4 &&
        isHexDigit c5 && isHexDigit c6 then
      { r := hexPairVal c1 c2, g := hexPairVal c3 c4, b := hexPairVal c5 c6 }
    else { r := 0, g := 0, b := 0 }
  | _ => { r := 0, g := 0, b := 0 }

/-- Whether the whole regex of `hexToRgb` matches. -/
def isValidHex6 (s : String) : Bool :=
  match stripHash s.toList with
  | [c1, c2, c3, c4, c5, c6] =>
    isHexDigit c1 && isHexDigit c2 && isHexDigit c3 && isHexDigit c4 &&
      isHexDigit c5 && isHexDigit c6
  | _ => false

/-- The per-character map of `escapeHtml`: the five HTML-significant
characters go to their entities, everything else to itself. -/
def escapeChar (c : Char) : String :=
  if c = '&' then "&amp;"
  else if c = '<' then "&lt;"
  else if c = '>' then "&gt;"
  else if c = '"' then "&quot;"
  else if c = Char.ofNat 39 then "&#039;"
  else String.singleton c

/-- One left-to-right pass over the characters, as
`text.replace(/[&<>"']/g, m => map[m])` performs. -/
def escapeHtmlCore : List Char → String
  | [] => ""
  | c :: rest => escapeChar c ++ escapeHtmlCore rest

/-- `escapeHtml` from the source. -/
def escapeHtml (text : String) : String := escapeHtmlCore text.toList

/-! ### Component-graph (framer) adapter -/

/-- One component descriptor of the framer payload. -/
structure FramerComponent where
  id : String
  name : String
  type : String
  props : List (String × JsonVal)
  children : List String
deriving DecidableEq, Repr

/-- The synthetic top-level frame of the framer payload. -/
structure FramerFrame where
  id : String
  name : String
  width : Int
  height : Int
  children : List String
deriving DecidableEq, Repr

/-- The `metadata` object of the framer payload. -/
structure FramerMetadata where
  exportedAt : String
  format : String
deriving DecidableEq, Repr

/-- The whole `framerConfig` object. -/
structure FramerConfig where
  version : String
  name : String
  metadata : FramerMetadata
  designTokens : DesignTokens
  components : List FramerComponent
  frames : List FramerFrame
deriving DecidableEq, Repr

/-- The eight explicit assignments of the `props` object literal, in source
order. -/
def framerExplicitProps (comp : ExportComponent) : List (String × JsonVal) :=
  [("title", JsonVal.str comp.title), ("content", JsonVal.str comp.content),
   ("backgroundColor", JsonVal.str comp.bgColor),
   ("textColor", JsonVal.str comp.textColor),
   ("width", JsonVal.num comp.width), ("height", JsonVal.num comp.height),
   ("x", JsonVal.num comp.x), ("y", JsonVal.num comp.y)]

/-- The `props` object literal of a framer component descriptor: the eight
explicit fields followed by the spread of `comp.properties`; on a duplicate
key the later (spread) entry wins, which `jsLookup` below realizes. -/
def framerProps (comp : ExportComponent) : List (String × JsonVal) :=
  framerExplicitProps comp ++ comp.properties

/-- Property lookup on a JS object literal given as an association list in
assignment order: the last assignment to a key wins. -/
def jsLookup (l : List (String × JsonVal)) (k : String) : Option JsonVal :=
  l.foldl (fun acc p => if p.1 = k then some p.2 else acc) none

/-- The descriptor built for one component by `components.map` in
`exportToFramer`. -/
def framerComponentOf (comp : ExportComponent) : FramerComponent :=
  { id := comp.id, name := comp.title, type := comp.type,
    props := framerProps comp, children := [] }

/-- The `framerConfig` object of `exportToFramer`. -/
def framerConfig (env : RunEnv) (components : List ExportComponent)
    (designTokens : DesignTokens) (projectName : String) : FramerConfig :=
  { version := "1.0.0", name := projectName,
    metadata := { exportedAt := env.now, format := "framer" },
    designTokens := designTokens,
    components := components.map framerComponentOf,
    frames := [{ id := "frame-1", name := "Main Frame", width := 1440,
                 height := (components.length : Int) * 400,
                 children := components.map (fun c => c.id) }] }

/-- The result descriptor of an adapter (minus the storage `url`, which the
external blob store produces). -/
structure ExportResult where
  fileKey : String
  format : String
  fileName : String
deriving DecidableEq, Repr

/-- `exportToFramer`: payload plus result descriptor.  The single `nanoid()`
call is the `fileKey` one. -/
def exportToFramer (env : RunEnv) (components : List ExportComponent)
    (designTokens : DesignTokens) (projectName : String) :
    FramerConfig × ExportResult :=
  (framerConfig env components designTokens projectName,
   { fileKey := "exports/" ++ projectName ++ "/framer-" ++ env.ids 0 ++ ".json",
     format := "framer", fileName := projectName ++ "-framer.json" })

/-! ### Node-document (figma) adapter -/

/-- A color of a solid paint: each channel is the integer channel of
`hexToRgb` divided by 255, the alpha is 1. -/
structure FigmaColor where
  r : ℚ
  g : ℚ
  b : ℚ
  a : ℚ
deriving DecidableEq, Repr

/-- A solid paint entry. -/
structure FigmaPaint where
  blendMode : String
  type : String
  color : FigmaColor
deriving DecidableEq, Repr

/-- The solid paint computed from a (possibly malformed) hex string, as both
`fills` arrays and the color styles build it. -/
def solidPaint (hex : String) : FigmaPaint :=
  { blendMode := "NORMAL", type := "SOLID",
    color := { r := ((hexToRgb hex).r : ℚ) / 255, g := ((hexToRgb hex).g : ℚ) / 255,
               b := ((hexToRgb hex).b : ℚ) / 255, a := 1 } }

/-- The single "TEXT" child of a frame node. -/
structure FigmaTextNode where
  id : String
  name : String
  type : String
  characters : String
  fills : List FigmaPaint
deriving DecidableEq, Repr

/-- One "FRAME" node per component. -/
structure FigmaFrameNode where
  id : String
  name : String
  type : String
  x : Int
  y : Int
  width : Int
  height : Int
  fills : List FigmaPaint
  children : List FigmaTextNode
deriving DecidableEq, Repr

/-- The single "CANVAS" node. -/
structure FigmaCanvas where
  id : String
  name : String
  type : String
  children : List FigmaFrameNode
deriving DecidableEq, Repr

/-- The "DOCUMENT" root node. -/
structure FigmaDocumentNode where
  id : String
  name : String
  type : String
  children : List FigmaCanvas
deriving DecidableEq, Repr

/-- One reusable color style per `colors` token. -/
structure FigmaStyle where
  key : String
  name : String
  description : String
  remote : Bool
  paints : List FigmaPaint
deriving DecidableEq, Repr

/-- The whole `figmaDocument` object. -/
structure FigmaDocument where
  document : FigmaDocumentNode
  assets : List String
  styles : List FigmaStyle
deriving DecidableEq, Repr

/-- The frame built for component `comp` at map index `idx`
(`id` is `` `${idx}:0` ``, the text child's `` `${idx}:1` ``). -/
def figmaFrameOf (idx : Nat) (comp : ExportComponent) : FigmaFrameNode :=
  { id := toString idx ++ ":0", name := comp.title, type := "FRAME",
    x := comp.x, y := comp.y, width := comp.width * 10, height := comp.height * 10,
    fills := [solidPaint comp.bgColor],
    children := [{ id := toString idx ++ ":1", name := "Text", type := "TEXT",
                   characters := comp.content,
                   fills := [solidPaint comp.textColor] }] }

/-- `components.map((comp, idx) => ...)` of `exportToFigma`, with the running
index made explicit. -/
def figmaFrames : Nat → List ExportComponent → List FigmaFrameNode
  | _, [] => []
  | idx, c :: rest => figmaFrameOf idx c :: figmaFrames (idx + 1) rest

/-- `Object.entries(designTokens.colors || {}).map(...)`: one style per color
token, whose `key` is a fresh `nanoid()` (the `idx`-th id of the run). -/
def figmaStyles (env : RunEnv) : Nat → List (String × String) → List FigmaStyle
  | _, [] => []
  | idx, (n, color) :: rest =>
    { key := env.ids idx, name := "Color/" ++ n,
      description := "Color token: " ++ n, remote := false,
      paints := [solidPaint color] } :: figmaStyles env (idx + 1) rest

/-- The single `"CANVAS"` child (`"Page 1"`) of the document node. -/
def figmaCanvasOf (components : List ExportComponent) : FigmaCanvas :=
  { id := "1:0", name := "Page 1", type := "CANVAS",
    children := figmaFrames 0 components }

/-- The `"DOCUMENT"` root node. -/
def figmaDocNodeOf (components : List ExportComponent)
    (projectName : String) : FigmaDocumentNode :=
  { id := "0:0", name := projectName, type := "DOCUMENT",
    children := [figmaCanvasOf components] }

/-- The `figmaDocument` object of `exportToFigma`. -/
def figmaDocument (env : RunEnv) (components : List ExportComponent)
    (designTokens : DesignTokens) (projectName : String) : FigmaDocument :=
  { document := figmaDocNodeOf components projectName,
    assets := [],
    styles := figmaStyles env 0 (designTokens.colors.getD []) }

/-- `exportToFigma`: payload plus result descriptor.  The `fileKey` `nanoid()`
call comes after the per-style ones. -/
def exportToFigma (env : RunEnv) (components : List ExportComponent)
    (designTokens : DesignTokens) (projectName : String) :
    FigmaDocument × ExportResult :=
  (figmaDocument env components designTokens projectName,
   { fileKey := "exports/" ++ projectName ++ "/figma-" ++
       env.ids (designTokens.colors.getD []).length ++ ".json",
     format := "figma", fileName := projectName ++ "-figma.json" })

/-! ### CMS-page (webflow) adapter -/

/-- The inline `style` object of a page child. -/
structure WebflowStyle where
  backgroundColor : String
  color : String
  width : String
  height : String
  position : String
  left : String
  top : String
deriving DecidableEq, Repr

/-- The single `p` child carrying the component's content. -/
structure WebflowTextChild where
  _id : String
  tag : String
  text : String
deriving DecidableEq, Repr

/-- One page child per component. -/
structure WebflowComponentNode where
  _id : String
  tag : String
  text : String
  role : String
  classes : List String
  dataComponentType : String
  style : WebflowStyle
  children : List WebflowTextChild
deriving DecidableEq, Repr

/-- The single "Home" page. -/
structure WebflowPage where
  _id : String
  createdOn : String
  updatedOn : String
  publishedOn : String
  name : String
  slug : String
  title : String
  rootElementId : String
  children : List WebflowComponentNode
deriving DecidableEq, Repr

/-- The unconditional English locale descriptor. -/
structure WebflowLocale where
  _id : String
  name : String
  isDefault : Bool
  code : String
deriving DecidableEq, Repr

/-- `globalStyles`: the three token groups defaulted to empty mappings. -/
structure WebflowGlobalStyles where
  colors : List (String × String)
  typography : List (String × String)
  spacing : List (String × String)
deriving DecidableEq, Repr

/-- The whole `webflowSite` object. -/
structure WebflowSite where
  _id : String
  createdOn : String
  updatedOn : String
  publishedOn : String
  name : String
  shortName : String
  lastPublishedOn : String
  createdBy : String
  updatedBy : String
  pages : List WebflowPage
  globalStyles : WebflowGlobalStyles
  cmsLocales : List WebflowLocale
deriving DecidableEq, Repr

/-- `toLowerCase()`, modelled character-wise (semantically the core
`String.toLower`, but in a form the kernel evaluates). -/
def jsToLower (s : String) : String := ⟨s.data.map Char.toLower⟩

/-- `replace(/\s+/g, "-")`: every maximal run of whitespace becomes a single
dash. -/
def collapseWs : List Char → List Char
  | [] => []
  | c :: rest =>
    if c.isWhitespace then
      match rest with
      | [] => ['-']
      | d :: _ => if d.isWhitespace then collapseWs rest else '-' :: collapseWs rest
    else c :: collapseWs rest

/-- `projectName.toLowerCase().replace(/\s+/g, "-")`. -/
def webflowShortName (projectName : String) : String :=
  ⟨collapseWs (jsToLower projectName).toList⟩

/-- The page child built for one component; `pIdx` is the run index of the
`nanoid()` call producing the `_id` of its `p` child. -/
def webflowComponentNodeOf (env : RunEnv) (pIdx : Nat)
    (comp : ExportComponent) : WebflowComponentNode :=
  { _id := comp.id, tag := "div", text := comp.title, role := "section",
    classes := ["component-" ++ comp.type],
    dataComponentType := comp.type,
    style := { backgroundColor := comp.bgColor, color := comp.textColor,
               width := toString comp.width ++ "%",
               height := toString comp.height ++ "px",
               position := "relative",
               left := toString comp.x ++ "%",
               top := toString comp.y ++ "px" },
    children := [{ _id := env.ids pIdx, tag := "p", text := comp.content }] }

/-- `components.map(...)` of `exportToWebflow`, threading the `nanoid()` call
index for the `p` children. -/
def webflowChildren (env : RunEnv) : Nat → List ExportComponent → List WebflowComponentNode
  | _, [] => []
  | idx, c :: rest => webflowComponentNodeOf env idx c :: webflowChildren env (idx + 1) rest

/-- The single page of the site.  Its `_id` is the second `nanoid()` of the
run, `rootElementId` the third, and the `p` children consume indices
`3, …, 3 + n - 1`. -/
def webflowPageOf (env : RunEnv) (components : List ExportComponent)
    (projectName : String) : WebflowPage :=
  { _id := env.ids 1, createdOn := env.now, updatedOn := env.now,
    publishedOn := env.now, name := "Home", slug := "index",
    title := projectName ++ " - Home", rootElementId := env.ids 2,
    children := webflowChildren env 3 components }

/-- The `webflowSite` object of `exportToWebflow`.  Its own `_id` is the first
`nanoid()` of the run; the locale `_id` is drawn after all `p` children. -/
def webflowSite (env : RunEnv) (components : List ExportComponent)
    (designTokens : DesignTokens) (projectName : String) : WebflowSite :=
  { _id := env.ids 0,
    createdOn := env.now, updatedOn := env.now, publishedOn := env.now,
    name := projectName,
    shortName := webflowShortName projectName,
    lastPublishedOn := env.now,
    createdBy := "ai-builder", updatedBy := "ai-builder",
    pages := [webflowPageOf env components projectName],
    globalStyles := { colors := designTokens.colors.getD [],
                      typography := designTokens.typography.getD [],
                      spacing := designTokens.spacing.getD [] },
    cmsLocales := [{ _id := env.ids (3 + components.length), name := "English",
                     isDefault := true, code := "en" }] }

/-- `exportToWebflow`: payload plus result descriptor.  The `fileKey`
`nanoid()` is the last one of the run. -/
def exportToWebflow (env : RunEnv) (components : List ExportComponent)
    (designTokens : DesignTokens) (projectName : String) :
    WebflowSite × ExportResult :=
  (webflowSite env components designTokens projectName,
   { fileKey := "exports/" ++ projectName ++ "/webflow-" ++
       env.ids (4 + components.length) ++ ".json",
     format := "webflow", fileName := projectName ++ "-webflow.json" })

/-! ### Markup (html) adapter -/

/-- `Array.prototype.join(sep)`. -/
def jsJoin (sep : String) : List String → String
  | [] => ""
  | [s] => s
  | s :: rest => s ++ sep ++ jsJoin sep rest

/-- One line of the `:root` CSS-variable block:
`` `  --color-${name.toLowerCase()}: ${color};` ``. -/
def cssVarLine (p : String × String) : String :=
  "  --color-" ++ jsToLower p.1 ++ ": " ++ p.2 ++ ";"

/-- The `cssVariables` constant of `exportToHTML`. -/
def cssVariables (designTokens : DesignTokens) : String :=
  jsJoin "\n" ((designTokens.colors.getD []).map cssVarLine)

/-- Literal pieces of the per-component section template, in order. -/
def secLit1 : String := "\n  <section class=\"component component-"

/-- Between `type` and `bgColor`. -/
def secLit2 : String := "\" style=\"background-color: "

/-- Between `bgColor` and `textColor`. -/
def secLit3 : String := "; color: "

/-- Between `textColor` and `width`. -/
def secLit4 : String := "; width: "

/-- Between `width` and `height`. -/
def secLit5 : String := "%; height: "

/-- Between `height` and the escaped `title`. -/
def secLit6 : String := "px;\">\n    <div class=\"component-content\">\n      <h2>"

/-- Between the escaped `title` and the escaped `content`. -/
def secLit7 : String := "</h2>\n      <p>"

/-- After the escaped `content`. -/
def secLit8 : String := "</p>\n    </div>\n  </section>\n"

/-- The section rendered for one component.  `type`, `bgColor`, `textColor`,
`width` and `height` are interpolated verbatim; only `title` and `content`
pass through `escapeHtml`. -/
def componentSectionHTML (comp : ExportComponent) : String :=
  secLit1 ++ comp.type ++ secLit2 ++ comp.bgColor ++ secLit3 ++
    comp.textColor ++ secLit4 ++ toString comp.width ++ secLit5 ++
    toString comp.height ++ secLit6 ++ escapeHtml comp.title ++ secLit7 ++
    escapeHtml comp.content ++ secLit8

/-- The `componentsHTML` constant: the sections joined with `"\n"`. -/
def componentsHTML (components : List ExportComponent) : String :=
  jsJoin "\n" (components.map componentSectionHTML)

/-- Document head up to the interpolated escaped project name. -/
def htmlTitlePre : String :=
  "<!DOCTYPE html>\n<html lang=\"en\">\n<head>\n  <meta charset=\"UTF-8\">\n  <meta name=\"viewport\" content=\"width=device-width, initial-scale=1.0\">\n  <title>"

/-- From the closing title tag to the interpolated CSS-variable block. -/
def htmlStylePre : String := "</title>\n  <style>\n    :root \x7b\n"

/-- The fixed style rules after the CSS-variable block, up to the
interpolated `componentsHTML`. -/
def htmlStyleRest : String :=
  "\n    \x7d\n\n    * \x7b\n      margin: 0;\n      padding: 0;\n      box-sizing: border-box;\n    \x7d\n\n    body \x7b\n      font-family: -apple-system, BlinkMacSystemFont, \x27Segoe UI\x27, Roboto, Oxygen, Ubuntu, Cantarell, sans-serif;\n      line-height: 1.6;\n      color: #333;\n    \x7d\n\n    .container \x7b\n      max-width: 1440px;\n      margin: 0 auto;\n      padding: 0 20px;\n    \x7d\n\n    .component \x7b\n      padding: 40px 20px;\n      margin: 20px 0;\n      border-radius: 8px;\n      transition: all 0.3s ease;\n    \x7d\n\n    .component-content \x7b\n      max-width: 1200px;\n      margin: 0 auto;\n    \x7d\n\n    .component-content h2 \x7b\n      font-size: 2rem;\n      margin-bottom: 1rem;\n      font-weight: 600;\n    \x7d\n\n    .component-content p \x7b\n      font-size: 1rem;\n      line-height: 1.8;\n      opacity: 0.9;\n    \x7d\n\n    /* Responsive Design */\n    @media (max-width: 768px) \x7b\n      .component \x7b\n        padding: 30px 15px;\n      \x7d\n\n      .component-content h2 \x7b\n        font-size: 1.5rem;\n      \x7d\n\n      .component-content p \x7b\n        font-size: 0.95rem;\n      \x7d\n    \x7d\n\n    @media (max-width: 480px) \x7b\n      .component \x7b\n        padding: 20px 10px;\n      \x7d\n\n      .component-content h2 \x7b\n        font-size: 1.25rem;\n      \x7d\n\n      .component-content p \x7b\n        font-size: 0.9rem;\n      \x7d\n    \x7d\n  </style>\n</head>\n<body>\n  <div class=\"container\">\n"

/-- Everything of the document before the interpolated `componentsHTML`. -/
def htmlDocPre (designTokens : DesignTokens) (projectName : String) : String :=
  htmlTitlePre ++ escapeHtml projectName ++ htmlStylePre ++
    cssVariables designTokens ++ htmlStyleRest

/-- Everything of the document after the interpolated `componentsHTML`. -/
def htmlDocPost : String := "\n  </div>\n</body>\n</html>"

/-- The `htmlContent` template literal of `exportToHTML`. -/
def htmlContent (components : List ExportComponent)
    (designTokens : DesignTokens) (projectName : String) : String :=
  htmlDocPre designTokens projectName ++ componentsHTML components ++ htmlDocPost

/-- `exportToHTML`: document plus result descriptor. -/
def exportToHTML (env : RunEnv) (components : List ExportComponent)
    (designTokens : DesignTokens) (projectName : String) :
    String × ExportResult :=
  (htmlContent components designTokens projectName,
   { fileKey := "exports/" ++ projectName ++ "/html-" ++ env.ids 0 ++ ".html",
     format := "html", fileName := projectName ++ ".html" })

/-! ### Infrastructure: occurrence counting, benign inputs, scrubbers -/

/-- Number of positions at which `pat` occurs in `l` as a contiguous block
(used to count `<section` openings of the markup output). -/
def countSub (pat : List Char) : List Char → Nat
  | [] => 0
  | c :: t => (if (c :: t).take pat.length = pat then 1 else 0) + countSub pat t

/-- No nonempty proper suffix of `a` is a prefix of `pat`; then no occurrence
of `pat` can straddle the boundary in `a ++ b`. -/
def safeCut (pat a : List Char) : Prop :=
  ∀ n, n < pat.length → 0 < n → a.drop (a.length - n) ≠ pat.take n

instance (pat a : List Char) : Decidable (safeCut pat a) := by
  unfold safeCut
  infer_instance

/-- The five characters `escapeHtml` replaces. -/
def htmlSpecials : List Char := ['&', '<', '>', '"', Char.ofNat 39]

/-- A component whose verbatim-interpolated fields put no `<` into the markup
output: its `type`, colors and the decimal renderings of `width`/`height` are
free of `<`.  (`title` and `content` need no such condition: they pass through
`escapeHtml`.) -/
def benignComponent (c : ExportComponent) : Prop :=
  '<' ∉ c.type.data ∧ '<' ∉ c.bgColor.data ∧ '<' ∉ c.textColor.data ∧
    '<' ∉ (toString c.width).data ∧ '<' ∉ (toString c.height).data

instance (c : ExportComponent) : Decidable (benignComponent c) := by
  unfold benignComponent
  infer_instance

/-- Color tokens whose names (lowercased) and values put no `<` into the
CSS-variable block. -/
def benignTokens (t : DesignTokens) : Prop :=
  ∀ p ∈ t.colors.getD ([] : List (String × String)),
    '<' ∉ (jsToLower p.1).data ∧ '<' ∉ p.2.data

instance (t : DesignTokens) : Decidable (benignTokens t) := by
  unfold benignTokens
  infer_instance

/-- Erase the framer payload's only volatile field, the export timestamp. -/
def scrubFramer (cfg : FramerConfig) : FramerConfig :=
  { cfg with metadata := { cfg.metadata with exportedAt := "" } }

/-- Erase a color style's generated `key`. -/
def scrubFigmaStyle (s : FigmaStyle) : FigmaStyle := { s with key := "" }

/-- Erase the figma payload's volatile fields (the per-style keys). -/
def scrubFigma (d : FigmaDocument) : FigmaDocument :=
  { d with styles := d.styles.map scrubFigmaStyle }

/-- Erase the generated `_id` of a `p` child. -/
def scrubWebflowText (t : WebflowTextChild) : WebflowTextChild :=
  { t with _id := "" }

/-- Erase the volatile fields inside a page child. -/
def scrubWebflowNode (nd : WebflowComponentNode) : WebflowComponentNode :=
  { nd with children := nd.children.map scrubWebflowText }

/-- Erase the volatile fields of the page. -/
def scrubWebflowPage (p : WebflowPage) : WebflowPage :=
  { p with _id := "", createdOn := "", updatedOn := "", publishedOn := "",
           rootElementId := "", children := p.children.map scrubWebflowNode }

/-- Erase the generated `_id` of a locale. -/
def scrubWebflowLocale (loc : WebflowLocale) : WebflowLocale :=
  { loc with _id := "" }

/-- Erase the webflow payload's volatile fields: generated ids and
timestamps. -/
def scrubWebflow (s : WebflowSite) : WebflowSite :=
  { s with _id := "", createdOn := "", updatedOn := "", publishedOn := "",
           lastPublishedOn := "",
           pages := s.pages.map scrubWebflowPage,
           cmsLocales := s.cmsLocales.map scrubWebflowLocale }

/-! ### Concrete sample inputs -/

/-- Design tokens with all three groups absent (`designTokens = {}`). -/
def emptyTokens : DesignTokens :=
  { colors := none, typography := none, spacing := none }

/-- The sample component of the repository's test suite. -/
def sampleComponent : ExportComponent :=
  { id := "comp-1", type := "hero", title := "Hero Section",
    content := "Welcome to our website", x := 0, y := 0, width := 100,
    height := 400, bgColor := "#3B82F6", textColor := "#FFFFFF",
    properties := [] }

/-- A component whose `bgColor` holds an HTML-significant character. -/
def taintedComponent : ExportComponent :=
  { sampleComponent with bgColor := "<x" }

/-- A component whose `properties` bag collides with the explicit `width`
field. -/
def overrideComponent : ExportComponent :=
  { sampleComponent with properties := [("width", JsonVal.num 999)] }

/-- Tokens holding one color entry. -/
def sampleTokens : DesignTokens :=
  { colors := some [("primary", "#3B82F6")], typography := none,
    spacing := none }

/-- A run environment; `envB` differs from `envA` only in the generated
ids, not in the clock. -/
def envA : RunEnv :=
  { ids := fun n => "idA-" ++ toString n, now := "2024-01-01T00:00:00.000Z" }

/-- A second run over the same inputs at the same instant, drawing different
unique ids. -/
def envB : RunEnv :=
  { ids := fun n => "idB-" ++ toString n, now := "2024-01-01T00:00:00.000Z" }

/-! ## Helper lemmas -/

theorem hexDigitVal_le (c : Char) : hexDigitVal c ≤ 15 := by
  unfold hexDigitVal
  split_ifs <;> omega

theorem hexPairVal_le (hi lo : Char) : hexPairVal hi lo ≤ 255 := by
  have h1 := hexDigitVal_le hi
  have h2 := hexDigitVal_le lo
  unfold hexPairVal
  omega

theorem escapeChar_no_special (c : Char) :
    '<' ∉ (escapeChar c).data ∧ '>' ∉ (escapeChar c).data := by
  unfold escapeChar
  split_ifs with h1 h2 h3 h4 h5
  · decide
  · decide
  · decide
  · decide
  · decide
  · refine ⟨fun hm => ?_, fun hm => ?_⟩
    · have h : '<' = c := by simpa [String.singleton] using hm
      exact h2 h.symm
    · have h : '>' = c := by simpa [String.singleton] using hm
      exact h3 h.symm

theorem escapeHtmlCore_no_special (l : List Char) :
    '<' ∉ (escapeHtmlCore l).data ∧ '>' ∉ (escapeHtmlCore l).data := by
  induction l with
  | nil => decide
  | cons c t ih =>
    refine ⟨fun h => ?_, fun h => ?_⟩
    · rcases List.mem_append.mp
        (by simpa [escapeHtmlCore, String.data_append] using h) with h' | h'
      · exact (escapeChar_no_special c).1 h'
      · exact ih.1 h'
    · rcases List.mem_append.mp
        (by simpa [escapeHtmlCore, String.data_append] using h) with h' | h'
      · exact (escapeChar_no_special c).2 h'
      · exact ih.2 h'

theorem escapeHtmlCore_append (l1 l2 : List Char) :
    escapeHtmlCore (l1 ++ l2) = escapeHtmlCore l1 ++ escapeHtmlCore l2 := by
  induction l1 with
  | nil =>
    apply String.ext
    simp [escapeHtmlCore, String.data_append]
  | cons c t ih =>
    apply String.ext
    simp [escapeHtmlCore, ih, String.data_append]

theorem escapeChar_eq_self (c : Char) (h : c ∉ htmlSpecials) :
    escapeChar c = String.singleton c := by
  have h' : c ≠ '&' ∧ c ≠ '<' ∧ c ≠ '>' ∧ c ≠ '"' ∧ c ≠ Char.ofNat 39 := by
    simpa [htmlSpecials] using h
  unfold escapeChar
  rw [if_neg h'.1, if_neg h'.2.1, if_neg h'.2.2.1, if_neg h'.2.2.2.1,
    if_neg h'.2.2.2.2]

theorem escapeHtmlCore_id (l : List Char) (h : ∀ c ∈ l, c ∉ htmlSpecials) :
    escapeHtmlCore l = ⟨l⟩ := by
  induction l with
  | nil => rfl
  | cons c t ih =>
    have hc := escapeChar_eq_self c (h c (by simp))
    have ht := ih (fun d hd => h d (by simp [hd]))
    apply String.ext
    simp [escapeHtmlCore, hc, ht, String.data_append, String.singleton]

/-! ## Claims C2 and C3 -/

/-- Claim C2: `hexToRgb` is total with every channel in `[0, 255]`; a string
of exactly six hex digits, optionally preceded by `#` and in either case,
decodes to the positional values of its three two-digit groups (in particular
`"#3B82F6"` to `{r:59, g:130, b:246}`); every other string decodes to
`{r:0, g:0, b:0}`. -/
theorem hexToRgb_spec :
    (∀ s : String,
      (hexToRgb s).r ≤ 255 ∧ (hexToRgb s).g ≤ 255 ∧ (hexToRgb s).b ≤ 255) ∧
    hexToRgb "#3B82F6" = { r := 59, g := 130, b := 246 } ∧
    hexToRgb "3b82f6" = { r := 59, g := 130, b := 246 } ∧
    (∀ s : String, isValidHex6 s = false →
      hexToRgb s = { r := 0, g := 0, b := 0 }) ∧
    (∀ (s : String) (c1 c2 c3 c4 c5 c6 : Char),
      stripHash s.toList = [c1, c2, c3, c4, c5, c6] →
      (isHexDigit c1 && isHexDigit c2 && isHexDigit c3 && isHexDigit c4 &&
        isHexDigit c5 && isHexDigit c6) = true →
      hexToRgb s =
        { r := hexPairVal c1 c2, g := hexPairVal c3 c4,
          b := hexPairVal c5 c6 }) ∧
    hexToRgb "" = { r := 0, g := 0, b := 0 } ∧
    hexToRgb "#3B82F" = { r := 0, g := 0, b := 0 } ∧
    hexToRgb "zzzzzz" = { r := 0, g := 0, b := 0 } := by
  refine ⟨?_, by decide, by decide, ?_, ?_, by decide, by decide, by decide⟩
  · intro s
    unfold hexToRgb
    split
    next c1 c2 c3 c4 c5 c6 heq =>
      split_ifs with hd
      · exact ⟨hexPairVal_le c1 c2, hexPairVal_le c3 c4, hexPairVal_le c5 c6⟩
      · exact ⟨Nat.zero_le _, Nat.zero_le _, Nat.zero_le _⟩
    next => exact ⟨Nat.zero_le _, Nat.zero_le _, Nat.zero_le _⟩
  · intro s h
    unfold hexToRgb
    split
    next c1 c2 c3 c4 c5 c6 heq =>
      unfold isValidHex6 at h
      rw [heq] at h
      have h' : (isHexDigit c1 && isHexDigit c2 && isHexDigit c3 &&
          isHexDigit c4 && isHexDigit c5 && isHexDigit c6) = false := h
      simp only [h']
      rfl
    next => rfl
  · intro s c1 c2 c3 c4 c5 c6 h hd
    unfold hexToRgb
    rw [show stripHash s.toList = [c1, c2, c3, c4, c5, c6] from h]
    simp only [hd]
    rfl

/-- Witness for C2: concrete instantiations of its conditional parts. -/
theorem hexToRgb_spec_witness :
    hexToRgb "zz" = { r := 0, g := 0, b := 0 } ∧
    hexToRgb "#00ff00" =
      { r := hexPairVal '0' '0', g := hexPairVal 'f' 'f',
        b := hexPairVal '0' '0' } :=
  ⟨hexToRgb_spec.2.2.2.1 "zz" (by decide),
   hexToRgb_spec.2.2.2.2.1 "#00ff00" '0' '0' 'f' 'f' '0' '0' (by decide)
     (by decide)⟩

/-- Claim C3: `escapeHtml` maps each of `&`, `<`, `>`, `"`, the apostrophe to
its entity in one pass (the ampersand of an inserted entity is never
re-escaped), acts homomorphically on concatenation, leaves strings without the
five characters unchanged, and its output never holds a literal `<` or `>`. -/
theorem escapeHtml_spec :
    escapeHtml "&" = "&amp;" ∧ escapeHtml "<" = "&lt;" ∧
    escapeHtml ">" = "&gt;" ∧ escapeHtml "\x22" = "&quot;" ∧
    escapeHtml "\x27" = "&#039;" ∧
    (∀ s t : String, escapeHtml (s ++ t) = escapeHtml s ++ escapeHtml t) ∧
    (∀ s : String, '<' ∉ (escapeHtml s).data ∧ '>' ∉ (escapeHtml s).data) ∧
    (∀ s : String, (∀ c ∈ s.data, c ∉ htmlSpecials) → escapeHtml s = s) ∧
    escapeHtml "<script>alert(\x22x\x22)</script>" =
      "&lt;script&gt;alert(&quot;x&quot;)&lt;/script&gt;" := by
  refine ⟨by decide, by decide, by decide, by decide, by decide, ?_, ?_, ?_,
    by decide⟩
  · intro s t
    show escapeHtmlCore (s ++ t).data = _
    rw [String.data_append, escapeHtmlCore_append]
    rfl
  · intro s
    exact escapeHtmlCore_no_special s.data
  · intro s h
    show escapeHtmlCore s.data = s
    rw [escapeHtmlCore_id s.data h]

/-- Witness for C3: concrete instantiations of its conditional parts. -/
theorem escapeHtml_spec_witness :
    escapeHtml ("abc" ++ "d<e") = escapeHtml "abc" ++ escapeHtml "d<e" ∧
    escapeHtml "hello" = "hello" :=
  ⟨escapeHtml_spec.2.2.2.2.2.1 "abc" "d<e",
   escapeHtml_spec.2.2.2.2.2.2.2.1 "hello" (by decide)⟩

/-! ## Claims C6, C7 and C9 -/

/-- Claim C6: the framer payload holds exactly one top-level frame, of width
1440, height `400 × component count`, whose child-id list is the input id
sequence in order. -/
theorem framer_frame_spec (env : RunEnv) (comps : List ExportComponent)
    (tokens : DesignTokens) (name : String) :
    (framerConfig env comps tokens name).frames.map
        (fun f => (f.width, f.height, f.children)) =
      [((1440 : Int), 400 * (comps.length : Int), comps.map (fun c => c.id))] := by
  simp [framerConfig, mul_comm]

theorem jsLookup_shift (k : String) (l : List (String × JsonVal)) :
    ∀ acc, l.foldl (fun a p => if p.1 = k then some p.2 else a) acc =
      (jsLookup l k).elim acc some := by
  induction l with
  | nil => intro acc; simp [jsLookup]
  | cons p t ih =>
    intro acc
    by_cases hp : p.1 = k
    · simp only [jsLookup, List.foldl_cons, if_pos hp]
      rw [ih (some p.2)]
      cases h2 : jsLookup t k <;> simp
    · simp only [jsLookup, List.foldl_cons, if_neg hp]
      rw [ih acc, ih none]
      cases h2 : jsLookup t k <;> simp

theorem jsLookup_append (l1 l2 : List (String × JsonVal)) (k : String) :
    jsLookup (l1 ++ l2) k = (jsLookup l2 k).elim (jsLookup l1 k) some := by
  unfold jsLookup
  rw [List.foldl_append]
  exact jsLookup_shift k l2 _

/-- Claim C7: in a framer component descriptor, `props` merges the eight
explicit fields with the open `properties` mapping, `properties` last: a key
present in `properties` always wins, and a key absent from it falls back to
the explicit field. -/
theorem framer_props_spec (comp : ExportComponent) (k : String) :
    (∀ v, jsLookup comp.properties k = some v →
      jsLookup (framerProps comp) k = some v) ∧
    (jsLookup comp.properties k = none →
      jsLookup (framerProps comp) k =
        jsLookup (framerExplicitProps comp) k) ∧
    jsLookup (framerExplicitProps comp) "title" =
      some (JsonVal.str comp.title) ∧
    jsLookup (framerExplicitProps comp) "content" =
      some (JsonVal.str comp.content) ∧
    jsLookup (framerExplicitProps comp) "backgroundColor" =
      some (JsonVal.str comp.bgColor) ∧
    jsLookup (framerExplicitProps comp) "textColor" =
      some (JsonVal.str comp.textColor) ∧
    jsLookup (framerExplicitProps comp) "width" =
      some (JsonVal.num comp.width) ∧
    jsLookup (framerExplicitProps comp) "height" =
      some (JsonVal.num comp.height) ∧
    jsLookup (framerExplicitProps comp) "x" = some (JsonVal.num comp.x) ∧
    jsLookup (framerExplicitProps comp) "y" = some (JsonVal.num comp.y) := by
  refine ⟨?_, ?_, rfl, rfl, rfl, rfl, rfl, rfl, rfl, rfl⟩
  · intro v hv
    unfold framerProps
    rw [jsLookup_append, hv]
    rfl
  · intro h
    unfold framerProps
    rw [jsLookup_append, h]
    rfl

/-- Witness for C7: a `properties` entry named `width` overrides the explicit
field; with no such entry the explicit field is served. -/
theorem framer_props_spec_witness :
    jsLookup overrideComponent.properties "width" = some (JsonVal.num 999) ∧
    jsLookup (framerProps overrideComponent) "width" =
      some (JsonVal.num 999) ∧
    jsLookup sampleComponent.properties "width" = none ∧
    jsLookup (framerProps sampleComponent) "width" =
      some (JsonVal.num sampleComponent.width) :=
  ⟨rfl,
   (framer_props_spec overrideComponent "width").1 (JsonVal.num 999) rfl,
   rfl,
   by
    rw [(framer_props_spec sampleComponent "width").2.1 rfl]
    exact (framer_props_spec sampleComponent "width").2.2.2.2.2.2.1⟩

/-- Claim C9: with `designTokens = {}` every format's token section is
present but empty, and with an empty component list every format yields
empty children/components/section lists; nothing fails (all builders are
total functions). -/
theorem degenerate_inputs_spec (env : RunEnv) (comps : List ExportComponent)
    (tokens : DesignTokens) (name : String) :
    (framerConfig env comps emptyTokens name).designTokens = emptyTokens ∧
    (figmaDocument env comps emptyTokens name).styles = [] ∧
    cssVariables emptyTokens = "" ∧
    (webflowSite env comps emptyTokens name).globalStyles =
      { colors := [], typography := [], spacing := [] } ∧
    (framerConfig env [] tokens name).components = [] ∧
    (framerConfig env [] tokens name).frames.map
        (fun f => (f.height, f.children)) = [((0 : Int), ([] : List String))] ∧
    (figmaDocument env [] tokens name).document.children.map
        (fun cv => cv.children) = [[]] ∧
    (webflowSite env [] tokens name).pages.map (fun p => p.children) = [[]] ∧
    componentsHTML [] = "" ∧
    htmlContent [] tokens name = htmlDocPre tokens name ++ "" ++ htmlDocPost := by
  refine ⟨rfl, rfl, rfl, rfl, rfl, ?_, rfl, rfl, rfl, rfl⟩
  simp [framerConfig]

/-! ## Claims C5 and C8 -/

theorem figmaFrames_getElem (comps : List ExportComponent) :
    ∀ k i, (figmaFrames k comps)[i]? =
      (comps[i]?).map (fun c => figmaFrameOf (k + i) c) := by
  induction comps with
  | nil => intro k i; simp [figmaFrames]
  | cons c t ih =>
    intro k i
    cases i with
    | zero => simp [figmaFrames]
    | succ j =>
      simp only [figmaFrames, List.getElem?_cons_succ]
      rw [ih (k + 1) j]
      have h : k + 1 + j = k + (j + 1) := by omega
      rw [h]

theorem webflowChildren_getElem (env : RunEnv) (comps : List ExportComponent) :
    ∀ k i, (webflowChildren env k comps)[i]? =
      (comps[i]?).map (fun c => webflowComponentNodeOf env (k + i) c) := by
  induction comps with
  | nil => intro k i; simp [webflowChildren]
  | cons c t ih =>
    intro k i
    cases i with
    | zero => simp [webflowChildren]
    | succ j =>
      simp only [webflowChildren, List.getElem?_cons_succ]
      rw [ih (k + 1) j]
      have h : k + 1 + j = k + (j + 1) := by omega
      rw [h]

/-- Claim C5: the figma payload's single canvas holds one `"FRAME"` per
component, at `(x, y)`, sized `(width × 10, height × 10)`, with exactly one
`"TEXT"` child carrying the raw `content` string. -/
theorem figma_frame_spec (env : RunEnv) (comps : List ExportComponent)
    (tokens : DesignTokens) (name : String) (i : Nat) (c : ExportComponent)
    (h : comps[i]? = some c) :
    (figmaDocument env comps tokens name).document.children.map
        (fun cv => (cv.type, cv.children)) = [("CANVAS", figmaFrames 0 comps)] ∧
    (figmaFrames 0 comps)[i]? = some (figmaFrameOf i c) ∧
    (figmaFrameOf i c).type = "FRAME" ∧
    (figmaFrameOf i c).x = c.x ∧ (figmaFrameOf i c).y = c.y ∧
    (figmaFrameOf i c).width = c.width * 10 ∧
    (figmaFrameOf i c).height = c.height * 10 ∧
    (figmaFrameOf i c).children.map (fun t => (t.type, t.characters)) =
      [("TEXT", c.content)] := by
  refine ⟨rfl, ?_, rfl, rfl, rfl, rfl, rfl, rfl⟩
  rw [figmaFrames_getElem comps 0 i, h]
  simp

/-- Witness for C5, on the test suite's sample component
(`width = 100`, `height = 400`): the frame measures 1000 × 4000 and carries
the raw content. -/
theorem figma_frame_spec_witness :
    ([sampleComponent][0]? = some sampleComponent) ∧
    (figmaFrameOf 0 sampleComponent).width = 1000 ∧
    (figmaFrameOf 0 sampleComponent).height = 4000 ∧
    (figmaFrameOf 0 sampleComponent).children.map
        (fun t => (t.type, t.characters)) =
      [("TEXT", "Welcome to our website")] := by
  have h := figma_frame_spec envA [sampleComponent] sampleTokens "Proj" 0
    sampleComponent rfl
  refine ⟨rfl, ?_, ?_, ?_⟩
  · rw [h.2.2.2.2.2.1]; decide
  · rw [h.2.2.2.2.2.2.1]; decide
  · rw [h.2.2.2.2.2.2.2]; decide

/-- Claim C8: each webflow page child is a `div` node showing the title,
classed exactly `component-<type>`, with a single `p` child carrying the
content; the markup section carries the same `component-<type>` class. -/
theorem webflow_node_spec (env : RunEnv) (comps : List ExportComponent)
    (tokens : DesignTokens) (name : String) (i : Nat) (c : ExportComponent)
    (h : comps[i]? = some c) :
    (webflowSite env comps tokens name).pages.map (fun p => p.children) =
      [webflowChildren env 3 comps] ∧
    (webflowChildren env 3 comps)[i]? =
      some (webflowComponentNodeOf env (3 + i) c) ∧
    (webflowComponentNodeOf env (3 + i) c).tag = "div" ∧
    (webflowComponentNodeOf env (3 + i) c).text = c.title ∧
    (webflowComponentNodeOf env (3 + i) c).classes =
      ["component-" ++ c.type] ∧
    (webflowComponentNodeOf env (3 + i) c).children.map
        (fun t => (t.tag, t.text)) = [("p", c.content)] ∧
    (∃ pre post,
      componentSectionHTML c = pre ++ ("component-" ++ c.type) ++ post) := by
  refine ⟨rfl, ?_, rfl, rfl, rfl, rfl, ?_⟩
  · rw [webflowChildren_getElem env comps 3 i, h]
    rfl
  · refine ⟨"\n  <section class=\x22component ",
      secLit2 ++ c.bgColor ++ secLit3 ++ c.textColor ++ secLit4 ++
        toString c.width ++ secLit5 ++ toString c.height ++ secLit6 ++
        escapeHtml c.title ++ secLit7 ++ escapeHtml c.content ++ secLit8, ?_⟩
    have hl : secLit1 = "\n  <section class=\x22component " ++ "component-" := by
      decide
    unfold componentSectionHTML
    rw [hl]
    simp only [String.append_assoc]

/-- Witness for C8, on a component of type `"hero"`: the class is
`component-hero` in both the CMS node and the markup section. -/
theorem webflow_node_spec_witness :
    ([sampleComponent][0]? = some sampleComponent) ∧
    (webflowComponentNodeOf envA (3 + 0) sampleComponent).classes =
      ["component-hero"] ∧
    (∃ pre post,
      componentSectionHTML sampleComponent =
        pre ++ "component-hero" ++ post) := by
  have h := webflow_node_spec envA [sampleComponent] sampleTokens "Proj" 0
    sampleComponent rfl
  refine ⟨rfl, ?_, ?_⟩
  · rw [h.2.2.2.2.1]; decide
  · obtain ⟨pre, post, hp⟩ := h.2.2.2.2.2.2
    have he : "component-" ++ sampleComponent.type = "component-hero" := by
      decide
    exact ⟨pre, post, by rw [hp, he]⟩

/-! ## Claim C10 -/

set_option maxRecDepth 4000 in
/-- Claim C10: in the markup output only `title`, `content` and the project
name pass through `escapeHtml`; `type`, `bgColor`, `textColor`, `width` and
`height` are interpolated verbatim, so a `bgColor` holding `<` puts a literal
unescaped `<` into the document. -/
theorem html_verbatim_spec (comp : ExportComponent) :
    (∃ p1 p2, componentSectionHTML comp = p1 ++ comp.type ++ p2) ∧
    (∃ p1 p2, componentSectionHTML comp = p1 ++ comp.bgColor ++ p2) ∧
    (∃ p1 p2, componentSectionHTML comp = p1 ++ comp.textColor ++ p2) ∧
    (∃ p1 p2, componentSectionHTML comp = p1 ++ toString comp.width ++ p2) ∧
    (∃ p1 p2, componentSectionHTML comp = p1 ++ toString comp.height ++ p2) ∧
    (∃ p1 p2 p3, componentSectionHTML comp =
      p1 ++ escapeHtml comp.title ++ p2 ++ escapeHtml comp.content ++ p3) ∧
    (∀ tokens name, ∃ q1 q2,
      htmlDocPre tokens name = q1 ++ escapeHtml name ++ q2) ∧
    (∃ p1 p2, componentSectionHTML taintedComponent =
      p1 ++ "background-color: <x; color: " ++ p2) ∧
    escapeHtml "<x" ≠ "<x" := by
  refine ⟨⟨secLit1, secLit2 ++ comp.bgColor ++ secLit3 ++ comp.textColor ++
      secLit4 ++ toString comp.width ++ secLit5 ++ toString comp.height ++
      secLit6 ++ escapeHtml comp.title ++ secLit7 ++
      escapeHtml comp.content ++ secLit8, ?_⟩,
    ⟨secLit1 ++ comp.type ++ secLit2, secLit3 ++ comp.textColor ++ secLit4 ++
      toString comp.width ++ secLit5 ++ toString comp.height ++ secLit6 ++
      escapeHtml comp.title ++ secLit7 ++ escapeHtml comp.content ++
      secLit8, ?_⟩,
    ⟨secLit1 ++ comp.type ++ secLit2 ++ comp.bgColor ++ secLit3,
      secLit4 ++ toString comp.width ++ secLit5 ++ toString comp.height ++
      secLit6 ++ escapeHtml comp.title ++ secLit7 ++
      escapeHtml comp.content ++ secLit8, ?_⟩,
    ⟨secLit1 ++ comp.type ++ secLit2 ++ comp.bgColor ++ secLit3 ++
      comp.textColor ++ secLit4, secLit5 ++ toString comp.height ++ secLit6 ++
      escapeHtml comp.title ++ secLit7 ++ escapeHtml comp.content ++
      secLit8, ?_⟩,
    ⟨secLit1 ++ comp.type ++ secLit2 ++ comp.bgColor ++ secLit3 ++
      comp.textColor ++ secLit4 ++ toString comp.width ++ secLit5,
      secLit6 ++ escapeHtml comp.title ++ secLit7 ++
      escapeHtml comp.content ++ secLit8, ?_⟩,
    ⟨secLit1 ++ comp.type ++ secLit2 ++ comp.bgColor ++ secLit3 ++
      comp.textColor ++ secLit4 ++ toString comp.width ++ secLit5 ++
      toString comp.height ++ secLit6, secLit7, secLit8, ?_⟩,
    ?_, ?_, by decide⟩
  · simp only [componentSectionHTML, String.append_assoc]
  · simp only [componentSectionHTML, String.append_assoc]
  · simp only [componentSectionHTML, String.append_assoc]
  · simp only [componentSectionHTML, String.append_assoc]
  · simp only [componentSectionHTML, String.append_assoc]
  · simp only [componentSectionHTML, String.append_assoc]
  · intro tokens name
    exact ⟨htmlTitlePre,
      htmlStylePre ++ cssVariables tokens ++ htmlStyleRest,
      by simp only [htmlDocPre, String.append_assoc]⟩
  · refine ⟨"\n  <section class=\x22component component-hero\x22 style=\x22",
      "#FFFFFF" ++ secLit4 ++ "100" ++ secLit5 ++ "400" ++ secLit6 ++
        escapeHtml "Hero Section" ++ secLit7 ++
        escapeHtml "Welcome to our website" ++ secLit8, ?_⟩
    decide

/-! ## Claim C1 -/

theorem figmaStyles_scrub (l : List (String × String)) :
    ∀ (idx : Nat) (e1 e2 : RunEnv),
      (figmaStyles e1 idx l).map scrubFigmaStyle =
        (figmaStyles e2 idx l).map scrubFigmaStyle := by
  induction l with
  | nil => intro idx e1 e2; rfl
  | cons p t ih =>
    intro idx e1 e2
    simp only [figmaStyles, List.map_cons, scrubFigmaStyle]
    rw [ih (idx + 1) e1 e2]

theorem webflowChildren_scrub (comps : List ExportComponent) :
    ∀ (idx : Nat) (e1 e2 : RunEnv),
      (webflowChildren e1 idx comps).map scrubWebflowNode =
        (webflowChildren e2 idx comps).map scrubWebflowNode := by
  induction comps with
  | nil => intro idx e1 e2; rfl
  | cons c t ih =>
    intro idx e1 e2
    simp only [webflowChildren, List.map_cons, scrubWebflowNode,
      webflowComponentNodeOf, List.map, scrubWebflowText]
    rw [ih (idx + 1) e1 e2]

/-- Counterexample to claim C1 as stated: two runs over identical
`components`, `designTokens` and `projectName`, at the same instant (equal
timestamps), still produce different webflow and figma payload bodies — the
webflow body embeds generated `nanoid()` ids and the figma body embeds one
generated style `key` per color token, none of which are the storage-key id
or a timestamp. -/
theorem export_determinism_counterexample :
    envA.now = envB.now ∧
    webflowSite envA [sampleComponent] sampleTokens "Proj" ≠
      webflowSite envB [sampleComponent] sampleTokens "Proj" ∧
    figmaDocument envA [sampleComponent] sampleTokens "Proj" ≠
      figmaDocument envB [sampleComponent] sampleTokens "Proj" := by
  refine ⟨rfl, fun h => ?_, fun h => ?_⟩
  · have h1 := congrArg WebflowSite._id h
    exact absurd h1 (by decide)
  · have h1 := congrArg (fun d => d.styles.map (fun s => s.key)) h
    exact absurd h1 (by decide)

/-- Claim C1 (amended): over identical inputs the markup document is
byte-identical across runs, the framer payload is identical once the
`metadata.exportedAt` timestamp is excluded, the figma payload once the
generated per-color-token style `key`s are excluded (its body holds no
timestamp), and the webflow payload once its embedded generated ids (`_id`s,
`rootElementId`) and timestamps (`createdOn`/`updatedOn`/`publishedOn`/
`lastPublishedOn`) are excluded. -/
theorem export_determinism_amended (e1 e2 : RunEnv)
    (comps : List ExportComponent) (tokens : DesignTokens) (name : String) :
    scrubFramer (framerConfig e1 comps tokens name) =
      scrubFramer (framerConfig e2 comps tokens name) ∧
    scrubFigma (figmaDocument e1 comps tokens name) =
      scrubFigma (figmaDocument e2 comps tokens name) ∧
    scrubWebflow (webflowSite e1 comps tokens name) =
      scrubWebflow (webflowSite e2 comps tokens name) ∧
    (exportToHTML e1 comps tokens name).1 =
      (exportToHTML e2 comps tokens name).1 ∧
    (exportToFramer e1 comps tokens name).2.fileName =
      (exportToFramer e2 comps tokens name).2.fileName := by
  refine ⟨rfl, ?_, ?_, rfl, rfl⟩
  · simp only [scrubFigma, figmaDocument]
    rw [figmaStyles_scrub _ 0 e1 e2]
  · simp only [scrubWebflow, webflowSite, scrubWebflowPage, webflowPageOf,
      List.map_cons, List.map_nil, scrubWebflowLocale]
    rw [webflowChildren_scrub comps 3 e1 e2]

/-! ## Claim C4: substring-counting infrastructure -/

theorem countSub_head_free (pat a b : List Char)
    (hhead : pat.head? = some '<') (h : '<' ∉ a) :
    countSub pat (a ++ b) = countSub pat b := by
  induction a with
  | nil => rfl
  | cons c t ih =>
    have hc : c ≠ '<' := fun he => h (by simp [he])
    have ht : '<' ∉ t := fun hm => h (List.mem_cons_of_mem c hm)
    rw [List.cons_append]
    have hne : ¬ ((c :: (t ++ b)).take pat.length = pat) := by
      intro he
      rcases pat with _ | ⟨p0, ps⟩
      · simp at hhead
      · have hp0 : p0 = '<' := by simpa using hhead
        rw [List.length_cons, List.take_succ_cons] at he
        have hce : c = p0 := ((List.cons.injEq _ _ _ _).mp he).1
        exact hc (hce.trans hp0)
    simp only [countSub, if_neg hne, Nat.zero_add]
    exact ih ht

theorem countSub_free (pat a : List Char) (hhead : pat.head? = some '<')
    (h : '<' ∉ a) : countSub pat a = 0 := by
  have hc := countSub_head_free pat a [] hhead h
  simpa [countSub] using hc

theorem countSub_append (pat a b : List Char) (hne : 0 < pat.length)
    (hsafe : safeCut pat a) :
    countSub pat (a ++ b) = countSub pat a + countSub pat b := by
  induction a with
  | nil => simp [countSub]
  | cons c t ih =>
    have hsafe' : safeCut pat t := by
      intro n hn hpos he
      by_cases hlen : n ≤ t.length
      · have hsuffix : (c :: t).drop ((c :: t).length - n) =
            t.drop (t.length - n) := by
          rw [List.length_cons]
          have h1 : t.length + 1 - n = (t.length - n) + 1 := by omega
          rw [h1, List.drop_succ_cons]
        exact hsafe n hn hpos (by rw [hsuffix, he])
      · have hdl : t.drop (t.length - n) = t := by
          have h0 : t.length - n = 0 := by omega
          rw [h0, List.drop_zero]
        rw [hdl] at he
        have hlen2 : (pat.take n).length = n := by
          rw [List.length_take]
          omega
        rw [← he] at hlen2
        omega
    rw [List.cons_append]
    simp only [countSub]
    rw [ih hsafe']
    have hiff : ((c :: (t ++ b)).take pat.length = pat) ↔
        ((c :: t).take pat.length = pat) := by
      by_cases hlen : pat.length ≤ (c :: t).length
      · rw [← List.cons_append, List.take_append_eq_append_take]
        have h0 : pat.length - (c :: t).length = 0 := by omega
        rw [h0, List.take_zero, List.append_nil]
      · constructor
        · intro he
          exfalso
          have hn : (c :: t).length < pat.length := by omega
          have hpos : 0 < (c :: t).length := by simp
          apply hsafe (c :: t).length hn hpos
          rw [Nat.sub_self, List.drop_zero]
          have h2 : pat.take (c :: t).length =
              ((c :: (t ++ b)).take pat.length).take (c :: t).length := by
            rw [he]
          rw [h2, List.take_take]
          have hmin : min (c :: t).length pat.length = (c :: t).length := by
            omega
          rw [hmin, ← List.cons_append, List.take_append_eq_append_take,
            List.take_length, Nat.sub_self, List.take_zero, List.append_nil]
        · intro he
          exfalso
          have hl2 := congrArg List.length he
          rw [List.length_take] at hl2
          simp only [List.length_cons] at hl2 hlen
          omega
    rw [if_congr hiff rfl rfl, Nat.add_assoc]

theorem safeCut_append_right (pat a b : List Char)
    (hlen : pat.length - 1 ≤ b.length) (h : safeCut pat b) :
    safeCut pat (a ++ b) := by
  intro n hn hpos he
  apply h n hn hpos
  have hsuffix : (a ++ b).drop ((a ++ b).length - n) =
      b.drop (b.length - n) := by
    rw [List.length_append, List.drop_append_eq_append_drop]
    rw [List.drop_eq_nil_of_le (by omega), List.nil_append]
    congr 1
    omega
  rw [← hsuffix]
  exact he

theorem escapeHtml_no_lt (s : String) : '<' ∉ (escapeHtml s).data :=
  (escapeHtmlCore_no_special s.data).1

theorem no_lt_append (a b : String) (ha : '<' ∉ a.data)
    (hb : '<' ∉ b.data) : '<' ∉ (a ++ b).data := by
  rw [String.data_append]
  intro hm
  rcases List.mem_append.mp hm with h | h
  · exact ha h
  · exact hb h

theorem cssVarLine_no_lt (p : String × String) (h1 : '<' ∉ (jsToLower p.1).data)
    (h2 : '<' ∉ p.2.data) : '<' ∉ (cssVarLine p).data := by
  unfold cssVarLine
  exact no_lt_append _ _
    (no_lt_append _ _ (no_lt_append _ _ (no_lt_append _ _ (by decide) h1)
      (by decide)) h2) (by decide)

theorem jsJoin_no_lt (l : List String) (h : ∀ s ∈ l, '<' ∉ s.data) :
    '<' ∉ (jsJoin "\n" l).data := by
  induction l with
  | nil => decide
  | cons s t ih =>
    cases t with
    | nil => exact h s (by simp)
    | cons s2 t2 =>
      show '<' ∉ ((s ++ "\n") ++ jsJoin "\n" (s2 :: t2)).data
      exact no_lt_append _ _ (no_lt_append _ _ (h s (by simp)) (by decide))
        (ih (fun d hd => h d (by simp [hd])))

theorem cssVariables_no_lt (tokens : DesignTokens) (h : benignTokens tokens) :
    '<' ∉ (cssVariables tokens).data := by
  unfold cssVariables
  apply jsJoin_no_lt
  intro s hs
  rcases List.mem_map.mp hs with ⟨p, hp, rfl⟩
  exact cssVarLine_no_lt p (h p hp).1 (h p hp).2

theorem section_length_ge (c : ExportComponent) :
    7 ≤ (componentSectionHTML c).data.length := by
  unfold componentSectionHTML
  simp only [String.data_append, List.length_append]
  have h8 : 7 ≤ secLit8.data.length := by decide
  omega

theorem safeCut_section (c : ExportComponent) :
    safeCut "<section".data (componentSectionHTML c).data := by
  unfold componentSectionHTML
  rw [String.data_append]
  exact safeCut_append_right _ _ _ (by decide) (by decide)

theorem componentsHTML_length_ge (c : ExportComponent)
    (t : List ExportComponent) :
    7 ≤ (componentsHTML (c :: t)).data.length := by
  cases t with
  | nil => exact section_length_ge c
  | cons c2 t2 =>
    show 7 ≤
      ((componentSectionHTML c ++ "\n") ++ componentsHTML (c2 :: t2)).data.length
    rw [String.data_append, List.length_append, String.data_append,
      List.length_append]
    have hs := section_length_ge c
    omega

theorem componentsHTML_safeCut (c : ExportComponent)
    (t : List ExportComponent) :
    safeCut "<section".data (componentsHTML (c :: t)).data := by
  induction t generalizing c with
  | nil => exact safeCut_section c
  | cons c2 t2 ih =>
    show safeCut "<section".data
      (((componentSectionHTML c ++ "\n") ++ componentsHTML (c2 :: t2))).data
    rw [String.data_append]
    exact safeCut_append_right _ _ _ (componentsHTML_length_ge c2 t2) (ih c2)

theorem countSub_section (c : ExportComponent) (hb : benignComponent c) :
    countSub "<section".data (componentSectionHTML c).data = 1 := by
  obtain ⟨h1, h2, h3, h4, h5⟩ := hb
  simp only [componentSectionHTML, String.data_append, List.append_assoc]
  rw [countSub_append "<section".data secLit1.data _ (by decide) (by decide),
      countSub_head_free "<section".data c.type.data _ (by decide) h1,
      countSub_append "<section".data secLit2.data _ (by decide) (by decide),
      countSub_head_free "<section".data c.bgColor.data _ (by decide) h2,
      countSub_append "<section".data secLit3.data _ (by decide) (by decide),
      countSub_head_free "<section".data c.textColor.data _ (by decide) h3,
      countSub_append "<section".data secLit4.data _ (by decide) (by decide),
      countSub_head_free "<section".data (toString c.width).data _ (by decide)
        h4,
      countSub_append "<section".data secLit5.data _ (by decide) (by decide),
      countSub_head_free "<section".data (toString c.height).data _
        (by decide) h5,
      countSub_append "<section".data secLit6.data _ (by decide) (by decide),
      countSub_head_free "<section".data (escapeHtml c.title).data _
        (by decide) (escapeHtml_no_lt c.title),
      countSub_append "<section".data secLit7.data _ (by decide) (by decide),
      countSub_head_free "<section".data (escapeHtml c.content).data _
        (by decide) (escapeHtml_no_lt c.content)]
  decide

theorem countSub_componentsHTML (comps : List ExportComponent)
    (h : ∀ c ∈ comps, benignComponent c) :
    countSub "<section".data (componentsHTML comps).data = comps.length := by
  induction comps with
  | nil => decide
  | cons c t ih =>
    cases t with
    | nil =>
      show countSub "<section".data (componentSectionHTML c).data = 1
      exact countSub_section c (h c (by simp))
    | cons c2 t2 =>
      show countSub "<section".data
          (((componentSectionHTML c ++ "\n") ++
            componentsHTML (c2 :: t2))).data = (c :: c2 :: t2).length
      rw [String.data_append, String.data_append, List.append_assoc]
      rw [countSub_append "<section".data (componentSectionHTML c).data _
            (by decide) (safeCut_section c),
          countSub_head_free "<section".data ("\n").data _ (by decide)
            (by decide),
          countSub_section c (h c (by simp)),
          ih (fun d hd => h d (by simp [hd]))]
      simp only [List.length_cons]
      omega

set_option maxRecDepth 100000 in
theorem countSub_htmlDocPre (tokens : DesignTokens) (name : String)
    (htok : benignTokens tokens) :
    countSub "<section".data (htmlDocPre tokens name).data = 0 ∧
    safeCut "<section".data (htmlDocPre tokens name).data := by
  constructor
  · simp only [htmlDocPre, String.data_append, List.append_assoc]
    rw [countSub_append "<section".data htmlTitlePre.data _ (by decide)
          (by decide),
        countSub_head_free "<section".data (escapeHtml name).data _
          (by decide) (escapeHtml_no_lt name),
        countSub_append "<section".data htmlStylePre.data _ (by decide)
          (by decide),
        countSub_head_free "<section".data (cssVariables tokens).data _
          (by decide) (cssVariables_no_lt tokens htok)]
    decide
  · unfold htmlDocPre
    rw [String.data_append]
    exact safeCut_append_right _ _ _ (by decide) (by decide)

set_option maxRecDepth 100000 in
/-- Claim C4: the framer payload's `components` list mirrors the input list
in length and order, each descriptor carrying the source component's `id`,
`title` (as `name`) and `type`; and the markup document holds exactly one
`<section` opening per input component (counted as substring occurrences —
which is why the verbatim-interpolated fields are required to hold no `<`;
escaped `title`/`content` need no such condition), in input order. -/
theorem component_count_spec (env : RunEnv) (comps : List ExportComponent)
    (tokens : DesignTokens) (name : String)
    (hc : ∀ c ∈ comps, benignComponent c) (htok : benignTokens tokens) :
    (framerConfig env comps tokens name).components.length = comps.length ∧
    (∀ (i : Nat) (c : ExportComponent), comps[i]? = some c →
      (framerConfig env comps tokens name).components[i]? =
        some (framerComponentOf c) ∧
      (framerComponentOf c).id = c.id ∧
      (framerComponentOf c).name = c.title ∧
      (framerComponentOf c).type = c.type) ∧
    (∀ (i : Nat) (c : ExportComponent), comps[i]? = some c →
      (comps.map componentSectionHTML)[i]? =
        some (componentSectionHTML c)) ∧
    countSub "<section".data (htmlContent comps tokens name).data =
      comps.length := by
  refine ⟨by simp [framerConfig], ?_, ?_, ?_⟩
  · intro i c h
    refine ⟨?_, rfl, rfl, rfl⟩
    simp [framerConfig, List.getElem?_map, h]
  · intro i c h
    simp [List.getElem?_map, h]
  · simp only [htmlContent, String.data_append, List.append_assoc]
    rw [countSub_append "<section".data (htmlDocPre tokens name).data _
          (by decide) (countSub_htmlDocPre tokens name htok).2,
        (countSub_htmlDocPre tokens name htok).1]
    rcases comps with _ | ⟨c, t⟩
    · decide
    · rw [countSub_append "<section".data (componentsHTML (c :: t)).data _
            (by decide) (componentsHTML_safeCut c t),
          countSub_componentsHTML (c :: t) hc]
      have hpost : countSub "<section".data htmlDocPost.data = 0 := by decide
      rw [hpost]
      omega

set_option maxRecDepth 100000 in
/-- Witness for C4: the benignness hypotheses hold at the test suite's sample
inputs and the markup document then holds exactly one section. -/
theorem component_count_spec_witness :
    (∀ c ∈ [sampleComponent], benignComponent c) ∧
    benignTokens sampleTokens ∧
    countSub "<section".data
      (htmlContent [sampleComponent] sampleTokens "My Site").data = 1 := by
  have hb : ∀ c ∈ [sampleComponent], benignComponent c := by decide
  have ht : benignTokens sampleTokens := by decide
  exact ⟨hb, ht,
    (component_count_spec envA [sampleComponent] sampleTokens "My Site" hb
      ht).2.2.2⟩
